import Mathlib

/-!
Verification of the Epson WorkForce status-page extractor
(custom_components/epson_workforce/parser.py and api.py) against its
specification.  The Python code is shallowly embedded: the HTML document
tree produced by BeautifulSoup is modelled by the inductive type HNode,
strings by Lean String (code points; Python semantics such as str.strip,
str.replace, str.split and the concrete regular expressions of the source
are implemented character by character), and every fallible step returns
Option.  Whitespace and word-character classes are modelled over the ASCII
range plus U+00A0, which covers every character class the source's
patterns distinguish on the pages this extractor targets.
-/

set_option maxRecDepth 4000

/-! ## Python-style character and string primitives -/

/-- Characters stripped by str.strip() / matched by the regex class \s
(ASCII whitespace plus the no-break space U+00A0, which Python treats as
whitespace). -/
def isPySpace (c : Char) : Bool :=
  c == ' ' || c == '\t' || c == '\n' || c == '\r' ||
  c == '\x0b' || c == '\x0c' || c == '\u00A0'

/-- Word characters for the regex class \w and the boundary assertion \b
(ASCII letters, digits and underscore). -/
def isWordChar (c : Char) : Bool :=
  c.isAlphanum || c == '_'

/-- Hexadecimal digit, both cases (the source's MAC patterns use
[0-9A-F] with re.IGNORECASE). -/
def isHexChar (c : Char) : Bool :=
  c.isDigit || (97 ≤ c.toNat && c.toNat ≤ 102) || (65 ≤ c.toNat && c.toNat ≤ 70)

/-- Python str.strip() on a character list. -/
def pyStripChars (cs : List Char) : List Char :=
  ((cs.dropWhile isPySpace).reverse.dropWhile isPySpace).reverse

/-- Python str.strip(). -/
def pyStrip (s : String) : String :=
  ⟨pyStripChars s.data⟩

/-- Python str.lower() (ASCII). -/
def strToLower (s : String) : String :=
  ⟨s.data.map Char.toLower⟩

/-- Python str.upper() (ASCII). -/
def strToUpper (s : String) : String :=
  ⟨s.data.map Char.toUpper⟩

/-- Does the first list start with the second (pattern) list? -/
def startsWithChars : List Char → List Char → Bool
  | [], _ => true
  | _ :: _, [] => false
  | p :: ps, c :: rest => p == c && startsWithChars ps rest

/-- Case-insensitive variant of startsWithChars; the pattern is given in
lower case, input characters are lowered before comparison (models
re.IGNORECASE for ASCII patterns). -/
def startsWithCharsCI : List Char → List Char → Bool
  | [], _ => true
  | _ :: _, [] => false
  | p :: ps, c :: rest => p == c.toLower && startsWithCharsCI ps rest

/-- Python substring containment, pat in s (over character lists). -/
def containsSubChars (pat : List Char) : List Char → Bool
  | [] => startsWithChars pat []
  | c :: rest => startsWithChars pat (c :: rest) || containsSubChars pat rest

/-- Python substring containment, pat in s. -/
def containsSub (s pat : String) : Bool :=
  containsSubChars pat.data s.data

/-- Python str.endswith for a single string argument. -/
def pyEndsWith (s pat : String) : Bool :=
  startsWithChars pat.data.reverse s.data.reverse

/-- Python str.startswith for a single string argument. -/
def pyStartsWith (s pat : String) : Bool :=
  startsWithChars pat.data s.data

/-- Python s[:-1] (drop the final character). -/
def dropLast1 (s : String) : String :=
  ⟨s.data.dropLast⟩

/-- Python str.replace: replace all non-overlapping occurrences, left to
right.  Fuelled by the input length (each step consumes at least one
character, so the fuel is always sufficient). -/
def replaceChars (pat rep : List Char) : Nat → List Char → List Char
  | 0, cs => cs
  | _, [] => []
  | fuel + 1, c :: rest =>
    if pat ≠ [] && startsWithChars pat (c :: rest) then
      rep ++ replaceChars pat rep fuel ((c :: rest).drop pat.length)
    else
      c :: replaceChars pat rep fuel rest

/-- Python str.replace. -/
def pyReplace (s pat rep : String) : String :=
  ⟨replaceChars pat.data rep.data s.data.length s.data⟩

/-- Python str.split(sub) for a non-empty separator substring (fuelled,
like replaceChars). -/
def splitChars (pat : List Char) : Nat → List Char → List (List Char)
  | 0, cs => [cs]
  | _, [] => [[]]
  | fuel + 1, c :: rest =>
    if pat ≠ [] && startsWithChars pat (c :: rest) then
      [] :: splitChars pat fuel ((c :: rest).drop pat.length)
    else
      match splitChars pat fuel rest with
      | [] => [[c]]
      | h :: t => (c :: h) :: t

/-- Python str.split(sub). -/
def pySplitSub (s pat : String) : List String :=
  (splitChars pat.data s.data.length s.data).map (⟨·⟩)

/-- Python str.split for a single-character separator. -/
def splitOnChar (sep : Char) : List Char → List (List Char)
  | [] => [[]]
  | c :: rest =>
    if c == sep then
      [] :: splitOnChar sep rest
    else
      match splitOnChar sep rest with
      | [] => [[c]]
      | h :: t => (c :: h) :: t

/-- Numeric value of a list of ASCII digits. -/
def digitsToNat (ds : List Char) : Nat :=
  ds.foldl (fun a c => a * 10 + (c.toNat - 48)) 0

/-- Non-empty, all ASCII decimal digits: the strings on which the
source's int(h) (guarded by h.isdigit()) actually succeeds — int()
accepts only Numeric_Type=Decimal characters. -/
def isDigits (s : String) : Bool :=
  !s.data.isEmpty && s.data.all Char.isDigit

/-- A character Python str.isdigit() accepts: Numeric_Type=Decimal and
also Numeric_Type=Digit characters, modelled over the ASCII digits plus
the Latin-1 superscripts (U+00B9, U+00B2, U+00B3), which have
Numeric_Type=Digit — str.isdigit() is True on them but int() raises
ValueError.  html.parser decodes entities such as &sup2; inside
attribute values, so these characters are reachable from pure-ASCII
markup. -/
def pyIsDigitChar (c : Char) : Bool :=
  c.isDigit || c == '\u00B9' || c == '\u00B2' || c == '\u00B3'

/-- Python str.isdigit(): non-empty and all digit-type characters. -/
def pyIsDigits (s : String) : Bool :=
  !s.data.isEmpty && s.data.all pyIsDigitChar

/-- No two adjacent underscores (part of Python int-literal syntax). -/
def noDoubleUnderscore : List Char → Bool
  | '_' :: '_' :: _ => false
  | _ :: rest => noDoubleUnderscore rest
  | [] => true

/-- Digit run with optional single underscores between digits, as accepted
by Python int() after the sign. -/
def validIntDigits (ds : List Char) : Bool :=
  !ds.isEmpty && ds.head? != some '_' && ds.getLast? != some '_' &&
  ds.all (fun c => c.isDigit || c == '_') && noDoubleUnderscore ds

/-- Python int(str): strips whitespace, accepts an optional sign and a
digit run with optional single underscores; None models ValueError. -/
def pyInt (s : String) : Option ℤ :=
  let t := pyStripChars s.data
  let signAndDigits : ℤ × List Char :=
    match t with
    | '+' :: r => (1, r)
    | '-' :: r => (-1, r)
    | r => (1, r)
  if validIntDigits signAndDigits.2 then
    some (signAndDigits.1 * (digitsToNat (signAndDigits.2.filter (· != '_')) : ℤ))
  else
    none

/-! ## The regular expressions of the source, as explicit scanners -/

/-- Match the regex fragment height\s*:\s*(\d+) at the head of the list,
returning the captured digit run. -/
def matchHeightAt (cs : List Char) : Option (List Char) :=
  if startsWithChars ['h', 'e', 'i', 'g', 'h', 't'] cs then
    let r1 := (cs.drop 6).dropWhile isPySpace
    match r1 with
    | ':' :: r2 =>
      let r3 := r2.dropWhile isPySpace
      let ds := r3.takeWhile Char.isDigit
      if ds.isEmpty then none else some ds
    | _ => none
  else
    none

/-- re.search for height\s*:\s*(\d+): leftmost match, value of group 1. -/
def heightSearch : List Char → Option Nat
  | [] => none
  | c :: rest =>
    match matchHeightAt (c :: rest) with
    | some ds => some (digitsToNat ds)
    | none => heightSearch rest

/-- A percent token captured by (\d{1,3}(?:\.\d+)?)\s*% : 1-3 integer
digits and an optional fraction digit run (empty when absent). -/
structure PctTok where
  intPart : List Char
  fracPart : List Char
deriving DecidableEq, Repr

/-- Match (\d{1,3}(?:\.\d+)?)\s*% at the head of the list, with the
backtracking behaviour of the Python regex: the digit run must be 1-3
characters (a longer run cannot match at this position because every
shorter prefix is still followed by a digit), the greedy optional fraction
is tried first and dropped if the following \s*% fails.  Returns the token
and the suffix after the %. -/
def matchPctAt (cs : List Char) : Option (PctTok × List Char) :=
  let ds := cs.takeWhile Char.isDigit
  if ds.isEmpty || decide (3 < ds.length) then
    none
  else
    let rest := cs.drop ds.length
    let withFrac : Option (PctTok × List Char) :=
      match rest with
      | '.' :: r2 =>
        let fs := r2.takeWhile Char.isDigit
        if fs.isEmpty then
          none
        else
          match ((r2.drop fs.length).dropWhile isPySpace) with
          | '%' :: r4 => some (⟨ds, fs⟩, r4)
          | _ => none
      | _ => none
    match withFrac with
    | some res => some res
    | none =>
      match rest.dropWhile isPySpace with
      | '%' :: r4 => some (⟨ds, []⟩, r4)
      | _ => none

/-- re.findall scanning loop for the percent tokens (fuelled by input
length; a match consumes at least two characters). -/
def pctScan : Nat → List Char → List PctTok
  | 0, _ => []
  | _, [] => []
  | fuel + 1, c :: rest =>
    match matchPctAt (c :: rest) with
    | some (t, suffix) => t :: pctScan fuel suffix
    | none => pctScan fuel rest

/-- All percent tokens of a style string, in order. -/
def findPercentTokens (s : String) : List PctTok :=
  pctScan s.data.length s.data

/-- Compare the fractional part 0.d1 d2 ... against one half. -/
def fracCmpHalf : List Char → Ordering
  | [] => .lt
  | d :: rest =>
    if d.toNat > 53 then .gt
    else if d.toNat < 53 then .lt
    else if rest.any (fun c => c != '0') then .gt
    else .eq

/-- Python round() to an integer (banker's rounding, ties to even),
evaluated on the exact decimal value of the token.  (Python rounds the
IEEE double nearest to the decimal literal; the two agree on every token
whose tie-ness is decided within double precision, in particular on all
tokens with at most a dozen or so digits.) -/
def pyRoundTok (t : PctTok) : ℤ :=
  let I : ℤ := (digitsToNat t.intPart : ℤ)
  match fracCmpHalf t.fracPart with
  | .lt => I
  | .gt => I + 1
  | .eq => if I % 2 = 0 then I else I + 1

/-- RE_MAC building block: two hex digits followed by a colon. -/
def macColonPair (cs : List Char) : Option (Char × Char × List Char) :=
  match cs with
  | a :: b :: ':' :: rest =>
    if isHexChar a && isHexChar b then some (a, b, rest) else none
  | _ => none

/-- Match ([0-9A-F]{2}:){5}[0-9A-F]{2}\b (case-insensitively) at the head
of the list, returning the matched characters.  The leading \b is handled
by the scanning loop. -/
def matchMacAt (cs : List Char) : Option (List Char) :=
  match macColonPair cs with
  | none => none
  | some (a1, b1, r1) =>
    match macColonPair r1 with
    | none => none
    | some (a2, b2, r2) =>
      match macColonPair r2 with
      | none => none
      | some (a3, b3, r3) =>
        match macColonPair r3 with
        | none => none
        | some (a4, b4, r4) =>
          match macColonPair r4 with
          | none => none
          | some (a5, b5, r5) =>
            match r5 with
            | c1 :: c2 :: rest =>
              if isHexChar c1 && isHexChar c2 &&
                 (match rest with | [] => true | c :: _ => !isWordChar c) then
                some [a1, b1, ':', a2, b2, ':', a3, b3, ':', a4, b4, ':',
                      a5, b5, ':', c1, c2]
              else none
            | [] => none
            | _ :: [] => none

/-- re.search for RE_MAC: scan left to right; the Bool argument records
whether a match may start here (\b: start of text or previous character
not a word character; the first matched character is a hex digit, hence a
word character). -/
def macScan : Bool → List Char → Option String
  | _, [] => none
  | bnd, c :: rest =>
    match (if bnd then matchMacAt (c :: rest) else none) with
    | some tok => some ⟨tok⟩
    | none => macScan (!isWordChar c) rest

/-- Case-insensitive literal match returning the actually matched
characters (needed because re groups return the original text). -/
def takeLitCI : List Char → List Char → Option (List Char × List Char)
  | [], rest => some ([], rest)
  | _ :: _, [] => none
  | p :: ps, c :: rest =>
    if p == c.toLower then
      match takeLitCI ps rest with
      | some (m, r) => some (c :: m, r)
      | none => none
    else none

/-- Match EPSON[0-9A-F]{6}\b case-insensitively at the head of the list,
returning the matched characters. -/
def matchDevnameAt (cs : List Char) : Option (List Char) :=
  match takeLitCI ['e', 'p', 's', 'o', 'n'] cs with
  | none => none
  | some (m, r) =>
    match r with
    | h1 :: h2 :: h3 :: h4 :: h5 :: h6 :: rest =>
      if isHexChar h1 && isHexChar h2 && isHexChar h3 &&
         isHexChar h4 && isHexChar h5 && isHexChar h6 &&
         (match rest with | [] => true | c :: _ => !isWordChar c) then
        some (m ++ [h1, h2, h3, h4, h5, h6])
      else none
    | _ => none

/-- re.search for RE_EPSON_DEVNAME (same boundary handling as macScan). -/
def devnameScan : Bool → List Char → Option String
  | _, [] => none
  | bnd, c :: rest =>
    match (if bnd then matchDevnameAt (c :: rest) else none) with
    | some tok => some ⟨tok⟩
    | none => devnameScan (!isWordChar c) rest

/-- One octet of RE_IPV4, (25[0-5]|2[0-4]\d|1\d\d|[1-9]?\d).  Since every
octet in the pattern is followed by a literal dot or the final \b, and
digits are word characters, the alternation can only succeed by consuming
the entire digit run at this position; runs of length 2 need a leading
1-9 and runs of length 3 must denote 100-255. -/
def ipOctetAt (cs : List Char) : Option (List Char × List Char) :=
  let ds := cs.takeWhile Char.isDigit
  let rest := cs.drop ds.length
  match ds with
  | [d1] => some ([d1], rest)
  | [d1, d2] =>
    if 49 ≤ d1.toNat && d1.toNat ≤ 57 then some ([d1, d2], rest) else none
  | [d1, d2, d3] =>
    if d1 == '1' || (d1 == '2' && d2.toNat ≤ 52) ||
       (d1 == '2' && d2 == '5' && d3.toNat ≤ 53) then
      some ([d1, d2, d3], rest)
    else none
  | _ => none

/-- Match RE_IPV4 (without the leading \b) at the head of the list,
returning the matched characters. -/
def matchIpAt (cs : List Char) : Option (List Char) :=
  match ipOctetAt cs with
  | none => none
  | some (o1, r1) =>
    match r1 with
    | '.' :: r1b =>
      match ipOctetAt r1b with
      | none => none
      | some (o2, r2) =>
        match r2 with
        | '.' :: r2b =>
          match ipOctetAt r2b with
          | none => none
          | some (o3, r3) =>
            match r3 with
            | '.' :: r3b =>
              match ipOctetAt r3b with
              | none => none
              | some (o4, r4) =>
                if (match r4 with | [] => true | c :: _ => !isWordChar c) then
                  some (o1 ++ '.' :: o2 ++ '.' :: o3 ++ '.' :: o4)
                else none
            | _ => none
        | _ => none
    | _ => none

/-- re.search for RE_IPV4 (same boundary handling as macScan). -/
def ipScan : Bool → List Char → Option String
  | _, [] => none
  | bnd, c :: rest =>
    match (if bnd then matchIpAt (c :: rest) else none) with
    | some tok => some ⟨tok⟩
    | none => ipScan (!isWordChar c) rest

/-- re.sub(r"^(?:printer|scanner)\s+status\s*[:\-]?\s*", "", s,
flags=IGNORECASE): anchored at the start, so at most one replacement; the
string is returned unchanged when the prefix pattern does not match. -/
def stripStatusLabel (s : String) : String :=
  let cs := s.data
  let afterWord : Option (List Char) :=
    if startsWithCharsCI ['p', 'r', 'i', 'n', 't', 'e', 'r'] cs ||
       startsWithCharsCI ['s', 'c', 'a', 'n', 'n', 'e', 'r'] cs then
      some (cs.drop 7)
    else none
  match afterWord with
  | none => s
  | some r1 =>
    match r1 with
    | c :: _ =>
      if isPySpace c then
        let r2 := r1.dropWhile isPySpace
        if startsWithCharsCI ['s', 't', 'a', 't', 'u', 's'] r2 then
          let r3 := (r2.drop 6).dropWhile isPySpace
          let r4 := match r3 with
            | ':' :: t => t
            | '-' :: t => t
            | t => t
          ⟨r4.dropWhile isPySpace⟩
        else s
      else s
    | [] => s

/-! ## The document tree (BeautifulSoup model)

A node is either a NavigableString or a Tag with a name, an optional id
attribute, a class-token list (BeautifulSoup splits the class attribute
into tokens), the remaining attributes and its children.  A soup (parsed
document) is the list of its top-level nodes.  html.parser lowercases tag
names, so all comparisons against literal tag names are plain equality.
-/

inductive HNode where
  | text (s : String)
  | elem (tag : String) (idAttr : Option String) (classes : List String)
         (attrs : List (String × String)) (children : List HNode)

/-- A parsed document: the top-level nodes of the soup. -/
abbrev Doc := List HNode

mutual
/-- All strict descendants of a node, in document (pre-)order; this is
the order in which BeautifulSoup's find / find_all / select traverse. -/
def HNode.descendants : HNode → List HNode
  | .text _ => []
  | .elem _ _ _ _ ch => descendantsList ch

/-- The nodes of a forest and all their descendants, in document order. -/
def descendantsList : List HNode → List HNode
  | [] => []
  | n :: rest => n :: (HNode.descendants n ++ descendantsList rest)
end

/-- All nodes of a document, in document order (what a find on the soup
object itself traverses). -/
def docNodes (d : Doc) : List HNode :=
  descendantsList d

/-- Is the node a Tag? -/
def HNode.isElem : HNode → Bool
  | .elem _ _ _ _ _ => true
  | .text _ => false

/-- Tag-name test. -/
def HNode.tagIs (n : HNode) (t : String) : Bool :=
  match n with
  | .elem tg _ _ _ _ => tg == t
  | .text _ => false

/-- The class-token list of a Tag (empty for strings), as returned by the
source's helper _classes. -/
def HNode.classList : HNode → List String
  | .elem _ _ cls _ _ => cls
  | .text _ => []

/-- The id attribute. -/
def HNode.idOf : HNode → Option String
  | .elem _ i _ _ _ => i
  | .text _ => none

/-- node.get(attr) for non-class, non-id attributes (style, height, ...). -/
def HNode.attr : HNode → String → Option String
  | .elem _ _ _ attrs _, k => (attrs.find? (fun p => p.1 == k)).map (·.2)
  | .text _, _ => none

/-- The direct children (Tag.contents). -/
def HNode.childNodes : HNode → List HNode
  | .elem _ _ _ _ ch => ch
  | .text _ => []

/-- Python truth value of a BeautifulSoup node: Tag.__len__ is the number
of contents, so an element is truthy iff it has children; a
NavigableString is truthy iff non-empty. -/
def truthyTag (n : HNode) : Bool :=
  match n with
  | .elem _ _ _ _ ch => !ch.isEmpty
  | .text s => !s.data.isEmpty

/-- First matching node in a list (document order). -/
def findIn (l : List HNode) (p : HNode → Bool) : Option HNode :=
  l.find? p

/-- Tag.find(name): first matching strict descendant. -/
def HNode.findTag (n : HNode) (t : String) : Option HNode :=
  findIn n.descendants (fun m => m.tagIs t)

/-- Tag.find(name, class_="c"): bs4 matches a string class_ against each
class token, case-sensitively. -/
def HNode.findTagClass (n : HNode) (t c : String) : Option HNode :=
  findIn n.descendants (fun m => m.tagIs t && m.classList.contains c)

/-- soup.find over the whole document. -/
def docFind (d : Doc) (p : HNode → Bool) : Option HNode :=
  findIn (docNodes d) p

/-- The NavigableStrings below (and including) a node, in document order
(what Tag.get_text concatenates). -/
def HNode.strings (n : HNode) : List String :=
  (n :: n.descendants).filterMap fun m =>
    match m with
    | .text s => some s
    | .elem _ _ _ _ _ => none

/-- All strings of the document, in document order. -/
def docStrings (d : Doc) : List String :=
  (docNodes d).filterMap fun m =>
    match m with
    | .text s => some s
    | .elem _ _ _ _ _ => none

/-- get_text(separator, strip): with strip=True each string is stripped
and empty results are skipped; pieces are joined with the separator. -/
def joinPieces (sep : String) (strip : Bool) (pieces : List String) : String :=
  let ps := if strip then (pieces.map pyStrip).filter (fun s => !s.data.isEmpty)
            else pieces
  String.intercalate sep ps

/-- Tag.get_text() (no separator, no strip). -/
def getTextRaw (n : HNode) : String :=
  joinPieces "" false n.strings

/-- Tag.get_text(strip=True). -/
def getTextStrip (n : HNode) : String :=
  joinPieces "" true n.strings

/-- Tag.get_text(" ", strip=True). -/
def getTextSS (n : HNode) : String :=
  joinPieces " " true n.strings

/-- soup.get_text() over the whole document. -/
def docGetTextRaw (d : Doc) : String :=
  joinPieces "" false (docStrings d)

/-- soup.get_text(" ", strip=True) over the whole document. -/
def docGetTextSS (d : Doc) : String :=
  joinPieces " " true (docStrings d)

/-! ## parser.py — the extractor -/

/-- Python "x or y" on optional strings: first truthy operand (None and
the empty string are falsy). -/
def orTruthy (a b : Option String) : Option String :=
  match a with
  | some s => if s.data.isEmpty then b else some s
  | none => b

/-- Python "if x:" guard on an optional string: the empty string becomes
absent. -/
def truthyOpt (a : Option String) : Option String :=
  match a with
  | some s => if s.data.isEmpty then none else some s
  | none => none

/-- Python dict lookup d.get(k). -/
def dictGet (l : List (String × String)) (k : String) : Option String :=
  (l.find? (fun p => p.1 == k)).map (·.2)

/-- Python dict assignment d[k] = v: overwrite in place when the key
exists (insertion order is preserved), append otherwise. -/
def dictInsert {α : Type} (l : List (String × α)) (k : String) (v : α) :
    List (String × α) :=
  if l.any (fun p => p.1 == k) then
    l.map (fun p => if p.1 == k then (k, v) else p)
  else
    l ++ [(k, v)]

/-- _height_from_style: an integer height out of an inline style,
re.search(r"height\s*:\s*(\d+)", style.lower()). -/
def height_from_style (n : HNode) : Option Nat :=
  match n.attr "style" with
  | none => none
  | some sv => heightSearch (sv.data.map Char.toLower)

/-- _percent_from_linear_gradient: parse a linear-gradient style string
and return the clamped, rounded second percent stop. -/
def percent_from_linear_gradient (sv : Option String) : Option ℤ :=
  match sv with
  | none => none
  | some s =>
    if s.data.isEmpty then none
    else if containsSub s "linear-gradient" then
      match findPercentTokens s with
      | _ :: t1 :: _ => some (max 0 (min 100 (pyRoundTok t1)))
      | _ => none
    else none

/-- _clean_key: strip stray colon / no-break-space artifacts from a table
key. -/
def clean_key (t : String) : String :=
  let t1 := pyReplace t "\u00A0:" ""
  let t2 := pyReplace t1 " :" ":"
  let t3 := pyStrip t2
  if pyEndsWith t3 ":" then pyStrip (dropLast1 t3) else t3

/-- _clean_value: normalize no-break spaces and strip. -/
def clean_value (t : String) : String :=
  pyStrip (pyReplace t "\u00A0" " ")

/-- MAX_STATUS_LENGTH of parser.py. -/
def MAX_STATUS_LENGTH : Nat := 40

/-- EpsonHTMLParser._clean_status: trim, drop a leading
"Printer/Scanner Status:" label, strip one trailing period from short
strings, and turn the empty result into None. -/
def clean_status (s : Option String) : Option String :=
  match s with
  | none => none
  | some s0 =>
    if s0.data.isEmpty then none
    else
      let s1 := pyStrip s0
      let s2 := stripStatusLabel s1
      let s3 :=
        if s2.data.length ≤ MAX_STATUS_LENGTH && pyEndsWith s2 "." then
          dropLast1 s2
        else s2
      if s3.data.isEmpty then none else some s3

/-- _parse_model: page title prefixed with the vendor name, else a
span.header element. -/
def parse_model (d : Doc) : Option String :=
  let header : Option String :=
    match docFind d (fun n => n.tagIs "span" && n.classList.contains "header") with
    | some hs =>
      let txt := getTextStrip hs
      if txt.data.isEmpty then none else some ("Epson " ++ txt)
    | none => none
  match docFind d (fun n => n.tagIs "title") with
  | some t =>
    let txt := pyStrip (getTextRaw t)
    if txt.data.isEmpty then header else some ("Epson " ++ txt)
  | none => header

/-- _parse_statuses: printer status from fieldset#PRT_STATUS, scanner
status from fieldset#SCN_STATUS, with a div.information span fallback for
the printer slot when the primary slot produced no value.  A key that is
present with value None and an absent key are returned alike as none
(callers only ever read the dict with .get). -/
def parse_statuses (d : Doc) : Option String × Option String :=
  let printer0 :=
    match docFind d (fun n => n.tagIs "fieldset" && n.idOf == some "PRT_STATUS") with
    | some fs => clean_status (some (getTextSS fs))
    | none => none
  let scanner :=
    match docFind d (fun n => n.tagIs "fieldset" && n.idOf == some "SCN_STATUS") with
    | some fs => clean_status (some (getTextSS fs))
    | none => none
  let printer :=
    match printer0 with
    | some v => some v
    | none =>
      match docFind d (fun n => n.tagIs "div" && n.classList.contains "information") with
      | some info =>
        match info.findTag "span" with
        | some sp => clean_status (some (getTextStrip sp))
        | none => none
      | none => none
  (printer, scanner)

/-- The label of a tank item: the text (uppercased) of the first div with
class token "clrname" (case-insensitive) whose stripped text is
non-empty; the source's loop keeps scanning past empty-text label divs. -/
def findClrnameLabel (li : HNode) : Option String :=
  ((li.descendants.filter (fun n => n.tagIs "div")).find? (fun dv =>
      dv.classList.any (fun c => strToLower c == "clrname") &&
      !(getTextStrip dv).data.isEmpty)).map
    (fun dv => strToUpper (getTextStrip dv))

/-- Does the tank item carry the maintenance/waste marker (a div with
class token "mbicn", case-insensitive)? -/
def is_maintenance (li : HNode) : Bool :=
  (li.descendants.filter (fun n => n.tagIs "div")).any (fun dv =>
    dv.classList.any (fun c => strToLower c == "mbicn"))

/-- The inner visual bar container: first div with class token "tank"
(case-insensitive). -/
def findBarDiv (li : HNode) : Option HNode :=
  (li.descendants.filter (fun n => n.tagIs "div")).find? (fun dv =>
    dv.classList.any (fun c => strToLower c == "tank"))

/-- bar_div.find("img", class_="color") or bar_div.find("img"):
img elements are void, hence have no children and are falsy, so the
Python "or" falls through to the unrestricted find whenever the
class-restricted find succeeds but yields an empty tag. -/
def imgOf (bar : HNode) : Option HNode :=
  match findIn bar.descendants (fun n => n.tagIs "img" && n.classList.contains "color") with
  | some i =>
    if truthyTag i then some i
    else findIn bar.descendants (fun n => n.tagIs "img")
  | none => findIn bar.descendants (fun n => n.tagIs "img")

/-- _li_bar_percent: pixel-height encoding, int(height) * 2, from the
height attribute, else from the inline style.  This total version guards
the conversion with isDigits (the heights on which int() succeeds) and
coincides with the source wherever the source does not raise;
li_bar_percentE below models the source's actual guard h.isdigit(),
whose mismatch with int() makes parse raise. -/
def li_bar_percent (li : HNode) : Option ℤ :=
  match findBarDiv li with
  | none => none
  | some bar =>
    match imgOf bar with
    | none => none
    | some im =>
      match im.attr "height" with
      | some h =>
        if isDigits h then some ((digitsToNat h.data : ℤ) * 2)
        else (height_from_style im).map (fun n => (n : ℤ) * 2)
      | none => (height_from_style im).map (fun n => (n : ℤ) * 2)

/-- _li_gradient_percent: gradient-stop encoding on the inner div.tank. -/
def li_gradient_percent (li : HNode) : Option ℤ :=
  match findBarDiv li with
  | none => none
  | some bar => percent_from_linear_gradient (bar.attr "style")

/-- soup.select("li.tank"): all li elements with class token "tank", in
document order. -/
def selectTanks (d : Doc) : List HNode :=
  (docNodes d).filter (fun n => n.tagIs "li" && n.classList.contains "tank")

/-- The fill percent of a tank item: bar height first, gradient as
fallback. -/
def tankPct (li : HNode) : Option ℤ :=
  match li_bar_percent li with
  | some p => some p
  | none => li_gradient_percent li

/-- The loop body of _parse_inks_and_maintenance for a single tank item:
skip items with no decodable percent; maintenance items set the
maintenance level (and never touch inks, even when labelled); labelled
non-maintenance items are entered into the ink dict. -/
def tankStep (acc : List (String × ℤ) × Option ℤ) (li : HNode) :
    List (String × ℤ) × Option ℤ :=
  match tankPct li with
  | none => acc
  | some p =>
    if is_maintenance li then (acc.1, some p)
    else
      match findClrnameLabel li with
      | some lab => (dictInsert acc.1 lab p, acc.2)
      | none => acc

/-- _parse_inks_and_maintenance. -/
def parse_inks_and_maintenance (d : Doc) : List (String × ℤ) × Option ℤ :=
  (selectTanks d).foldl tankStep ([], none)

/-- A class list with a token containing the given substring (the
callable class_ filters of _parse_table_by_container_id). -/
def hasClassSub (n : HNode) (sub : String) : Bool :=
  n.classList.any (fun c => containsSub c sub)

/-- _parse_table_by_container_id: the key/value rows of the table below
the element with the given id. -/
def parse_table_by_container_id (d : Doc) (cid : String) : List (String × String) :=
  match docFind d (fun n => n.isElem && n.idOf == some cid) with
  | none => []
  | some root =>
    (root.descendants.filter (fun n => n.tagIs "tr")).foldl
      (fun data tr =>
        match findIn tr.descendants (fun n => n.tagIs "td" && hasClassSub n "item-key"),
              findIn tr.descendants (fun n => n.tagIs "td" && hasClassSub n "item-value") with
        | some tk, some tv =>
          let k := clean_key (getTextSS tk)
          let v := clean_value (getTextSS tv)
          if k.data.isEmpty then data else dictInsert data k v
        | _, _ => data)
      []

/-- _extract_mac_from_text: RE_MAC over the flattened page text. -/
def extract_mac_from_text (d : Doc) : Option String :=
  macScan true (docGetTextSS d).data

/-- _extract_ip_from_text: RE_IPV4 over the flattened page text. -/
def extract_ip_from_text (d : Doc) : Option String :=
  ipScan true (docGetTextSS d).data

/-- _extract_device_name: RE_EPSON_DEVNAME over the flattened page text,
uppercased. -/
def extract_device_name (d : Doc) : Option String :=
  (devnameScan true (docGetTextSS d).data).map strToUpper

/-- The Parsed Record (keys that the source leaves out of the dict and
keys it stores with value None are represented alike by none; the spec
requires callers to treat the two identically). -/
structure Record where
  source : Option String
  model : Option String
  printer_status : Option String
  scanner_status : Option String
  inks : List (String × ℤ)
  maintenance_box : Option ℤ
  network : List (String × String)
  wifi_direct : Option (List (String × String))
  name : Option String
  mac_address : Option String
  ip_address : Option String
deriving DecidableEq, Repr

/-- EpsonHTMLParser.parse. -/
def parseDoc (d : Doc) (source : String) : Record :=
  let model := parse_model d
  let statuses := parse_statuses d
  let inksMaint := parse_inks_and_maintenance d
  let network := parse_table_by_container_id d "info-network"
  let wifi := parse_table_by_container_id d "info-wfd"
  let name0 :=
    orTruthy (dictGet network "Device Name")
      (orTruthy (dictGet network "Printer Name")
        (orTruthy (extract_device_name d) model))
  let mac0 :=
    orTruthy (dictGet network "MAC Address")
      (orTruthy (dictGet network "MAC address") (extract_mac_from_text d))
  let ip0 := orTruthy (dictGet network "IP Address") (extract_ip_from_text d)
  { source := orTruthy (some source) model
    model := model
    printer_status := statuses.1
    scanner_status := statuses.2
    inks := inksMaint.1
    maintenance_box := inksMaint.2
    network := network
    wifi_direct := if wifi.isEmpty then none else some wifi
    name := truthyOpt name0
    mac_address := truthyOpt mac0
    ip_address := truthyOpt ip0 }

/-- An EpsonHTMLParser instance: __init__ stores the source label and the
parsed soup; the parse method reads only these two fields and writes no
instance state. -/
structure EpsonHTMLPage where
  source : String
  soup : Doc

/-- EpsonHTMLParser.parse as a method of the instance. -/
def EpsonHTMLPage.parse (p : EpsonHTMLPage) : Record :=
  parseDoc p.soup p.source

/-- The one uncaught exception class reachable inside
EpsonHTMLParser.parse: ValueError from int() applied to a height string
that passed str.isdigit() but contains a non-decimal digit character
(parser.py wraps no extraction step in try/except). -/
inductive PyErr where
  | valueError
deriving DecidableEq, Repr

/-- _li_bar_percent with the source's exception path made explicit: the
guard at parser.py:232 is h.isdigit() (pyIsDigits), after which int(h)
is called unguarded; int() accepts only decimal digits (isDigits), so a
height attribute of Numeric_Type=Digit characters raises a ValueError
that nothing in parser.py catches. -/
def li_bar_percentE (li : HNode) : Except PyErr (Option ℤ) :=
  match findBarDiv li with
  | none => .ok none
  | some bar =>
    match imgOf bar with
    | none => .ok none
    | some im =>
      match im.attr "height" with
      | some h =>
        if pyIsDigits h then
          if isDigits h then .ok (some ((digitsToNat h.data : ℤ) * 2))
          else .error .valueError
        else .ok ((height_from_style im).map (fun n => (n : ℤ) * 2))
      | none => .ok ((height_from_style im).map (fun n => (n : ℤ) * 2))

/-- tankPct with the exception channel (the gradient path cannot raise:
its regex feeds float() only digit-and-dot tokens). -/
def tankPctE (li : HNode) : Except PyErr (Option ℤ) :=
  match li_bar_percentE li with
  | .error e => .error e
  | .ok none => .ok (li_gradient_percent li)
  | .ok (some p) => .ok (some p)

/-- tankStep with the exception channel (label and maintenance marker
are computed before the percent in the source and cannot raise). -/
def tankStepE (acc : List (String × ℤ) × Option ℤ) (li : HNode) :
    Except PyErr (List (String × ℤ) × Option ℤ) :=
  match tankPctE li with
  | .error e => .error e
  | .ok none => .ok acc
  | .ok (some p) =>
    .ok (if is_maintenance li then (acc.1, some p)
         else
           match findClrnameLabel li with
           | some lab => (dictInsert acc.1 lab p, acc.2)
           | none => acc)

/-- The tank loop with the exception channel: an exception aborts the
remaining items and escapes the loop. -/
def tanksFoldE : List HNode → (List (String × ℤ) × Option ℤ) →
    Except PyErr (List (String × ℤ) × Option ℤ)
  | [], acc => .ok acc
  | li :: rest, acc =>
    match tankStepE acc li with
    | .error e => .error e
    | .ok acc2 => tanksFoldE rest acc2

/-- _parse_inks_and_maintenance with the exception channel. -/
def parse_inks_and_maintenanceE (d : Doc) :
    Except PyErr (List (String × ℤ) × Option ℤ) :=
  tanksFoldE (selectTanks d) ([], none)

/-- EpsonHTMLParser.parse with the exception channel: the ink/maintenance
pass is the only step of parse that can raise (every other step is a
total lookup or guarded conversion), so a ValueError there escapes parse
itself. -/
def parseDocE (d : Doc) (source : String) : Except PyErr Record :=
  match parse_inks_and_maintenanceE d with
  | .error e => .error e
  | .ok inksMaint =>
    .ok { source := orTruthy (some source) (parse_model d)
          model := parse_model d
          printer_status := (parse_statuses d).1
          scanner_status := (parse_statuses d).2
          inks := inksMaint.1
          maintenance_box := inksMaint.2
          network := parse_table_by_container_id d "info-network"
          wifi_direct :=
            if (parse_table_by_container_id d "info-wfd").isEmpty then none
            else some (parse_table_by_container_id d "info-wfd")
          name := truthyOpt
            (orTruthy (dictGet (parse_table_by_container_id d "info-network") "Device Name")
              (orTruthy (dictGet (parse_table_by_container_id d "info-network") "Printer Name")
                (orTruthy (extract_device_name d) (parse_model d))))
          mac_address := truthyOpt
            (orTruthy (dictGet (parse_table_by_container_id d "info-network") "MAC Address")
              (orTruthy (dictGet (parse_table_by_container_id d "info-network") "MAC address")
                (extract_mac_from_text d)))
          ip_address := truthyOpt
            (orTruthy (dictGet (parse_table_by_container_id d "info-network") "IP Address")
              (extract_ip_from_text d)) }

/-! ## api.py — the caller-facing read API -/

/-- A sensor value: the source returns int for levels, str for the
printer status, None for everything absent. -/
inductive SV where
  | i (n : ℤ)
  | s (t : String)
deriving DecidableEq, Repr

/-- LEVEL_SENSOR_TO_DIV of api.py. -/
def LEVEL_SENSOR_TO_DIV : List (String × String × String) :=
  [("black", "clrname", "BK"),
   ("photoblack", "clrname", "PB"),
   ("magenta", "clrname", "M"),
   ("cyan", "clrname", "C"),
   ("yellow", "clrname", "Y"),
   ("lightcyan", "clrname", "LC"),
   ("lightmagenta", "clrname", "LM"),
   ("clean", "mbicn", "Waste")]

/-- MAX_STATUS_LENGTH of api.py (the two modules define different
thresholds). -/
def API_MAX_STATUS_LENGTH : Nat := 30

/-- The mutable state of an EpsonWorkForceAPI object: the availability
flag, the last parsed soup (None until a fetch succeeds) and the cached
model / MAC fields of _extract_device_info. -/
structure ApiState where
  available : Bool
  soup : Option Doc
  modelF : Option String
  macF : Option String

/-- The state __init__ establishes before its update() call. -/
def initApiState : ApiState :=
  { available := true, soup := none, modelF := none, macF := none }

/-- EpsonWorkForceAPI._clean_status: strict < 30 threshold, no trimming,
and the stripped result is returned even when empty. -/
def api_clean_status (st : Option String) : Option String :=
  match st with
  | none => none
  | some s =>
    if s.data.isEmpty then none
    else some (if s.data.length < API_MAX_STATUS_LENGTH && pyEndsWith s "." then
                 dropLast1 s
               else s)

/-- _get_fieldset_status: fieldset#PRT_STATUS > ul, get_text(strip=True),
cleaned; "if not fieldset" / "if not ul" are Python truth tests, so empty
elements fall through to None. -/
def get_fieldset_status (d : Doc) : Option String :=
  match docFind d (fun n => n.tagIs "fieldset" && n.idOf == some "PRT_STATUS") with
  | none => none
  | some fs =>
    if !truthyTag fs then none
    else
      match fs.findTag "ul" with
      | none => none
      | some ul =>
        if !truthyTag ul then none
        else api_clean_status (some (getTextStrip ul))

/-- _get_information_div_status: div.information, preferring a span
inside p.clearfix, else any span in the container; all the intermediate
"or" / "if" steps are Python truth tests on tags. -/
def get_information_div_status (d : Doc) : Option String :=
  match docFind d (fun n => n.tagIs "div" && n.classList.contains "information") with
  | none => none
  | some info =>
    if !truthyTag info then none
    else
      let p := info.findTagClass "p" "clearfix"
      let spanFromP : Option HNode :=
        match p with
        | some pt => if truthyTag pt then pt.findTag "span" else none
        | none => none
      let span : Option HNode :=
        match spanFromP with
        | some sp => if truthyTag sp then some sp else info.findTag "span"
        | none => info.findTag "span"
      match span with
      | none => none
      | some sp =>
        if !truthyTag sp then none
        else api_clean_status (some (getTextStrip sp))

/-- _get_printer_status: fieldset structure first, information div as
fallback, "Unknown" when neither yields a truthy string.  (No statement
in either helper can raise, so the except-branch is dead.) -/
def get_printer_status (d : Doc) : String :=
  match truthyOpt (get_fieldset_status d) with
  | some s => s
  | none =>
    match truthyOpt (get_information_div_status d) with
    | some s => s
    | none => "Unknown"

/-- First Tag descendant: Tag.findChild() with no arguments. -/
def firstElemDesc (n : HNode) : Option HNode :=
  findIn n.descendants (fun m => m.isElem)

/-- int(li.find("div", class_="tank").findChild()["height"]) * 2; none
models any exception on the way (AttributeError on a missing tank div,
TypeError on a missing child, KeyError on a missing attribute, ValueError
on a non-numeric one), all of which the source's except swallows. -/
def heightOfTank (li : HNode) : Option ℤ :=
  match li.findTagClass "div" "tank" with
  | none => none
  | some dv =>
    match firstElemDesc dv with
    | none => none
    | some child =>
      match child.attr "height" with
      | none => none
      | some h => (pyInt h).map (fun n => n * 2)

/-- The try-block loop of get_sensor_value over the li.tank items: a
falsy or missing label div skips the item (the "and" short-circuits
before contents[0] is read); a truthy label div always has a first
content, which is compared against the sensor's div text ("Waste"
matches unconditionally); on a match the height expression is returned
and any exception inside it ends the whole call as None. -/
def inkLoop (divName divText : String) : List HNode → Option ℤ
  | [] => none
  | li :: rest =>
    match li.findTagClass "div" divName with
    | none => inkLoop divName divText rest
    | some dv =>
      if !truthyTag dv then inkLoop divName divText rest
      else
        let contentHit : Bool :=
          match dv.childNodes with
          | .text s :: _ => divText == s
          | _ => false
        if contentHit || divText == "Waste" then heightOfTank li
        else inkLoop divName divText rest

/-- soup.find_all("li", class_="tank"). -/
def selectLiTank (d : Doc) : List HNode :=
  (docNodes d).filter (fun n => n.tagIs "li" && n.classList.contains "tank")

/-- EpsonWorkForceAPI.get_sensor_value. -/
def get_sensor_value (st : ApiState) (sensor : String) : Option SV :=
  match st.soup with
  | none => none
  | some d =>
    if d.isEmpty then none
    else if sensor == "printer_status" then some (.s (get_printer_status d))
    else
      match (LEVEL_SENSOR_TO_DIV.find? (fun e => e.1 == sensor)).map (·.2) with
      | none => none
      | some (divName, divText) => (inkLoop divName divText (selectLiTank d)).map .i

/-- The model property: _model or the generic fallback label. -/
def modelProp (st : ApiState) : String :=
  match orTruthy st.modelF (some "WorkForce Printer") with
  | some s => s
  | none => "WorkForce Printer"

/-- The mac_address property. -/
def macProp (st : ApiState) : Option String :=
  st.macF

/-- _extract_device_info: overwrite the cached model from the page title
and the cached MAC address from a "MAC Address" line of the page text;
fields keep their previous values when nothing is found. -/
def extract_device_info (st : ApiState) (d : Doc) : ApiState :=
  if d.isEmpty then st
  else
    let st1 :=
      match docFind d (fun n => n.tagIs "title") with
      | some t =>
        if truthyTag t && !(getTextRaw t).data.isEmpty then
          let tt := pyStrip (getTextRaw t)
          if tt.data.isEmpty then st else { st with modelF := some ("Epson " ++ tt) }
        else st
      | none => st
    let lines :=
      ((splitOnChar '\n' (docGetTextRaw d).data).map (fun cs => pyStrip ⟨cs⟩)).filter
        (fun s => !s.data.isEmpty)
    match lines.find? (fun ln => containsSub ln "MAC Address" && containsSub ln ":") with
    | none => st1
    | some ln =>
      let part0 := pyStrip ((pySplitSub ln "MAC Address").getD 1 "")
      let part := if pyStartsWith part0 ":" then pyStrip ⟨part0.data.drop 1⟩ else part0
      { st1 with macF := some part }

/-- EpsonWorkForceAPI.update, with the network fetch made explicit: the
argument is some parsed document on success and none on any exception
(timeout, refused connection, read error).  On failure only the
availability flag changes; the previous soup and cached fields are
retained. -/
def update (st : ApiState) (fetched : Option Doc) : ApiState :=
  match fetched with
  | none => { st with available := false }
  | some d => extract_device_info { st with soup := some d, available := true } d

/-! ## Concrete documents and states used in the claim analyses -/

/-- A 45px bar image (the fixture-style pixel-height encoding). -/
def img45 : HNode := HNode.elem "img" none [] [("height", "45")] []

/-- The visual bar container around img45. -/
def barDiv45 : HNode := HNode.elem "div" none ["tank"] [] [img45]

/-- A black-ink tank item with a 45px bar. -/
def tankLi45 : HNode :=
  HNode.elem "li" none ["tank"] []
    [HNode.elem "div" none ["clrname"] [] [HNode.text "BK"], barDiv45]

/-- A tank item whose bar image advertises a 60px height — outside the
0-50px band the firmware renders, but nothing in the code rejects it. -/
def overTallLi : HNode :=
  HNode.elem "li" none ["tank"] []
    [HNode.elem "div" none ["clrname"] [] [HNode.text "BK"],
     HNode.elem "div" none ["tank"] [] [HNode.elem "img" none [] [("height", "60")] []]]

/-- A single-item page around overTallLi. -/
def overTallDoc : Doc := [overTallLi]

/-- A gradient-encoded tank item (XP-2200 style): no img below the bar
container, the fill level sits in the second percent stop of the style. -/
def gradLi : HNode :=
  HNode.elem "li" none ["tank"] []
    [HNode.elem "div" none ["clrname"] [] [HNode.text "C"],
     HNode.elem "div" none ["tank"]
       [("style", "background: linear-gradient(to top, #0ff 0%, #0ff 34%, #fff 34%, #fff 100%)")] []]

/-- A maintenance-box tank item that also carries a clrname label. -/
def wasteLi : HNode :=
  HNode.elem "li" none ["tank"] []
    [HNode.elem "div" none ["clrname"] [] [HNode.text "WX"],
     HNode.elem "div" none ["mbicn"] [] [HNode.text "|"],
     HNode.elem "div" none ["tank"] [] [HNode.elem "img" none [] [("height", "21")] []]]

/-- The failing input for the isdigit/int mismatch: a tank item whose
bar image carries height="&sup2;", which html.parser decodes to the
superscript-two character — str.isdigit() passes, int() raises. -/
def supLi : HNode :=
  HNode.elem "li" none ["tank"] []
    [HNode.elem "div" none ["tank"] []
      [HNode.elem "img" none [] [("height", "\u00B2")] []]]

/-- A single-item page around supLi. -/
def supDoc : Doc := [supLi]

/-- A primary status container whose flattened text is "." — non-empty,
but cleaned away to None by _clean_status. -/
def fsDot : HNode := HNode.elem "fieldset" (some "PRT_STATUS") [] [] [HNode.text "."]

/-- fsDot next to a populated fallback structure. -/
def c5doc : Doc :=
  [fsDot,
   HNode.elem "div" none ["information"] []
     [HNode.elem "span" none [] [] [HNode.text "Fallback Status"]]]

/-- A primary status container with ordinary text. -/
def fsPrimary : HNode :=
  HNode.elem "fieldset" (some "PRT_STATUS") [] [] [HNode.text "Primary Status"]

/-- fsPrimary next to a populated fallback structure. -/
def c5docBoth : Doc :=
  [fsPrimary,
   HNode.elem "div" none ["information"] []
     [HNode.elem "span" none [] [] [HNode.text "Fallback Status"]]]

/-- A page whose only MAC-shaped token is lower-case free text. -/
def macLowerDoc : Doc :=
  [HNode.elem "p" none [] [] [HNode.text "MAC addr aa:bb:cc:dd:ee:ff end"]]

/-- API state after one successful fetch of a page with a black tank. -/
def apiS0 : ApiState := update initApiState (some [tankLi45])

/-- apiS0 after a subsequent failed fetch. -/
def apiS1 : ApiState := update apiS0 none

/-- MAC token shape: six colon-separated pairs of hex digits, either
case (what RE_MAC matches, with no case normalization). -/
def isMacShape (s : String) : Bool :=
  match s.data with
  | [a1, b1, c1, a2, b2, c2, a3, b3, c3, a4, b4, c4, a5, b5, c5, a6, b6] =>
    isHexChar a1 && isHexChar b1 && c1 == ':' &&
    isHexChar a2 && isHexChar b2 && c2 == ':' &&
    isHexChar a3 && isHexChar b3 && c3 == ':' &&
    isHexChar a4 && isHexChar b4 && c4 == ':' &&
    isHexChar a5 && isHexChar b5 && c5 == ':' &&
    isHexChar a6 && isHexChar b6
  | _ => false

/-! ## Claim analyses -/

/-- C1, counterexample: a tank item with inline-attribute height 60 is
stored in the parsed record's inks as 120, which neither lies in [0,100]
nor equals clamp(60*2, 0, 100) = 100 — the pixel-height path multiplies
by 2 without clamping. -/
theorem c1_counterexample :
    (parseDoc overTallDoc "src").inks = [("BK", 120)] ∧
    ¬((120 : ℤ) ≤ 100) ∧
    max 0 (min 100 ((60 : ℤ) * 2)) ≠ 120 := by
  decide

/-- C1 (amended): for a tank item whose bar image carries an all-digit
height attribute h, the stored channel percent is exactly h*2 with no
clamping; it lies in [0,100] (and agrees with clamp(h*2, 0, 100)) exactly
when h ≤ 50, the band the firmware renders; gradient-decoded percents,
by contrast, are always clamped into [0,100]. -/
theorem c1_pixel_percent (li bar im : HNode) (hs : String)
    (h1 : findBarDiv li = some bar) (h2 : imgOf bar = some im)
    (h3 : im.attr "height" = some hs) (h4 : isDigits hs = true) :
    li_bar_percent li = some ((digitsToNat hs.data : ℤ) * 2) ∧
    (digitsToNat hs.data ≤ 50 →
      0 ≤ (digitsToNat hs.data : ℤ) * 2 ∧ (digitsToNat hs.data : ℤ) * 2 ≤ 100 ∧
      max 0 (min 100 ((digitsToNat hs.data : ℤ) * 2)) = (digitsToNat hs.data : ℤ) * 2) ∧
    (∀ sv p, percent_from_linear_gradient sv = some p → 0 ≤ p ∧ p ≤ 100) := by
  refine ⟨?_, ?_, ?_⟩
  · simp [li_bar_percent, h1, h2, h3, h4]
  · intro hle
    have hle2 : (digitsToNat hs.data : ℤ) * 2 ≤ 100 := by
      have : (digitsToNat hs.data : ℤ) ≤ 50 := by exact_mod_cast hle
      omega
    have hge : (0 : ℤ) ≤ (digitsToNat hs.data : ℤ) * 2 := by positivity
    refine ⟨hge, hle2, ?_⟩
    rw [min_eq_right hle2, max_eq_right hge]
  · intro sv p hp
    match sv with
    | none => simp [percent_from_linear_gradient] at hp
    | some s =>
      unfold percent_from_linear_gradient at hp
      by_cases he : s.data.isEmpty
      · simp [he] at hp
      · simp only [he] at hp
        by_cases hg : containsSub s "linear-gradient"
        · simp only [hg, if_true] at hp
          match hts : findPercentTokens s with
          | [] => rw [hts] at hp; simp at hp
          | [t0] => rw [hts] at hp; simp at hp
          | t0 :: t1 :: rest =>
            rw [hts] at hp
            have hval : some (max 0 (min 100 (pyRoundTok t1))) = some p := by
              simpa using hp
            obtain rfl : max 0 (min 100 (pyRoundTok t1)) = p := Option.some.inj hval
            exact ⟨le_max_left 0 _, max_le (by norm_num) (min_le_left _ _)⟩
        · simp [hg] at hp

/-- C1, witness: a 45px bar decodes to 90 = 45*2, inside [0,100] and
equal to its own clamp. -/
theorem c1_witness :
    li_bar_percent tankLi45 = some ((digitsToNat "45".data : ℤ) * 2) ∧
    digitsToNat "45".data ≤ 50 ∧
    max 0 (min 100 ((digitsToNat "45".data : ℤ) * 2)) = (digitsToNat "45".data : ℤ) * 2 :=
  have h := c1_pixel_percent tankLi45 barDiv45 img45 "45" rfl rfl rfl rfl
  ⟨h.1, by decide, (h.2.1 (by decide)).2.2⟩

/-- C2, counterexample: "ab.." is at most 40 characters long and does
not end in exactly one period, so by the claim its trailing period should
be kept; _clean_status nevertheless strips one period, returning "ab.". -/
theorem c2_counterexample :
    clean_status (some "ab..") = some "ab." ∧
    ("ab.." : String).data.length ≤ 40 ∧
    pyEndsWith "ab.." "." = true ∧ pyEndsWith "ab.." ".." = true ∧
    clean_status (some "ab..") ≠ some "ab.." := by
  decide

/-- C2 (amended): after trimming and label-stripping, parser.py's
_clean_status removes the final period iff the string is at most 40
characters long and ends with a period (one period is removed even when
several trail), with an empty result mapped to None; api.py's
_clean_status applies the same rule to the raw string with a strict
30-character threshold and keeps empty results. -/
theorem c2_trailing_period (s : String) :
    (clean_status (some s) =
      (let t := stripStatusLabel (pyStrip s)
       let r := if t.data.length ≤ MAX_STATUS_LENGTH && pyEndsWith t "." then
                  dropLast1 t
                else t
       if r.data.isEmpty then none else some r)) ∧
    (s.data.isEmpty = false →
      api_clean_status (some s) =
        some (if s.data.length < API_MAX_STATUS_LENGTH && pyEndsWith s "." then
                dropLast1 s
              else s)) := by
  constructor
  · obtain ⟨data⟩ := s
    match data with
    | [] => decide
    | c :: rest =>
      unfold clean_status
      simp
  · intro hne
    simp [api_clean_status, hne]

/-- C2, witness: the short status "Paper jam." loses its period under
both implementations. -/
theorem c2_witness :
    clean_status (some "Paper jam.") = some "Paper jam" ∧
    api_clean_status (some "Paper jam.") = some "Paper jam" :=
  have h := c2_trailing_period "Paper jam."
  ⟨h.1.trans (by decide), (h.2 (by decide)).trans (by decide)⟩

theorem isDigits_imp_py {s : String} (h : isDigits s = true) :
    pyIsDigits s = true := by
  unfold isDigits at h
  unfold pyIsDigits
  simp only [Bool.and_eq_true, List.all_eq_true] at h ⊢
  refine ⟨h.1, fun c hc => ?_⟩
  have hd := h.2 c hc
  unfold pyIsDigitChar
  simp [hd]

theorem li_bar_percentE_ok {li : HNode} {v : Option ℤ}
    (h : li_bar_percentE li = .ok v) : li_bar_percent li = v := by
  unfold li_bar_percentE at h
  split at h
  next hfb =>
    simp only [Except.ok.injEq] at h
    subst h
    simp [li_bar_percent, hfb]
  next bar hfb =>
    split at h
    next him =>
      simp only [Except.ok.injEq] at h
      subst h
      simp [li_bar_percent, hfb, him]
    next im him =>
      split at h
      next hstr hat =>
        split at h
        next hpy =>
          split at h
          next hd =>
            simp only [Except.ok.injEq] at h
            subst h
            simp [li_bar_percent, hfb, him, hat, hd]
          next hd => exact absurd h (by simp)
        next hpy =>
          simp only [Except.ok.injEq] at h
          subst h
          have hd : ¬isDigits hstr = true := fun hdd => hpy (isDigits_imp_py hdd)
          simp [li_bar_percent, hfb, him, hat, hd]
      next hat =>
        simp only [Except.ok.injEq] at h
        subst h
        simp [li_bar_percent, hfb, him, hat]

theorem tankPctE_ok {li : HNode} {v : Option ℤ}
    (h : tankPctE li = .ok v) : tankPct li = v := by
  unfold tankPctE at h
  split at h
  next e heq => exact absurd h (by simp)
  next heq =>
    have hw := li_bar_percentE_ok heq
    simp only [Except.ok.injEq] at h
    subst h
    simp [tankPct, hw]
  next p heq =>
    have hw := li_bar_percentE_ok heq
    simp only [Except.ok.injEq] at h
    subst h
    simp [tankPct, hw]

theorem tankStepE_ok {acc acc2 : List (String × ℤ) × Option ℤ} {li : HNode}
    (h : tankStepE acc li = .ok acc2) : acc2 = tankStep acc li := by
  unfold tankStepE at h
  split at h
  next e heq => exact absurd h (by simp)
  next heq =>
    have hw := tankPctE_ok heq
    simp only [Except.ok.injEq] at h
    subst h
    simp [tankStep, hw]
  next p heq =>
    have hw := tankPctE_ok heq
    simp only [Except.ok.injEq] at h
    subst h
    simp [tankStep, hw]

theorem tanksFoldE_ok : ∀ (ls : List HNode) (acc acc2 : List (String × ℤ) × Option ℤ),
    tanksFoldE ls acc = .ok acc2 → acc2 = ls.foldl tankStep acc := by
  intro ls
  induction ls with
  | nil =>
    intro acc acc2 h
    simp only [tanksFoldE, Except.ok.injEq] at h
    subst h
    rfl
  | cons li rest ih =>
    intro acc acc2 h
    unfold tanksFoldE at h
    split at h
    next e heq => exact absurd h (by simp)
    next a2 heq =>
      have hstep := tankStepE_ok heq
      subst hstep
      simpa using ih _ _ h

theorem parseDocE_agrees {d : Doc} {src : String} {r : Record}
    (h : parseDocE d src = .ok r) : r = parseDoc d src := by
  unfold parseDocE at h
  split at h
  next e heq => exact absurd h (by simp)
  next im heq =>
    have him : im = parse_inks_and_maintenance d := tanksFoldE_ok _ _ _ heq
    simp only [Except.ok.injEq] at h
    subst h
    subst him
    rfl

/-- C3, code bug: parse is NOT exception-safe.  Python's str.isdigit()
accepts Numeric_Type=Digit characters such as the superscript two
(which html.parser produces from the pure-ASCII entity &sup2; inside an
attribute value), but int() rejects them, and parser.py wraps no
extraction step in try/except: at parser.py lines 231-233 the guard
h.isdigit() passes and int(h) raises an uncaught ValueError that
propagates out of parse.  On the failing input supDoc the
exception-aware embedding errors where the claim demands a record with
that field absent; on every input on which no exception occurs it
returns exactly the record of the total embedding parseDoc, so the
claimed per-field degradation holds only away from this error path. -/
theorem c3_uncaught_valueerror :
    pyIsDigits "\u00B2" = true ∧ isDigits "\u00B2" = false ∧ pyInt "\u00B2" = none ∧
    parseDocE supDoc "src" = .error .valueError ∧
    (∀ (d : Doc) (src : String) (r : Record),
      parseDocE d src = .ok r → r = parseDoc d src) :=
  ⟨by decide, by decide, rfl, rfl, fun _ _ _ h => parseDocE_agrees h⟩

/-- C3, witness: on a well-formed page (a black tank at 45px) the
exception-aware parse completes and returns the total embedding's
record. -/
theorem c3_witness :
    parseDoc [tankLi45] "w" =
      { source := some "w", model := none, printer_status := none,
        scanner_status := none, inks := [("BK", 90)], maintenance_box := none,
        network := [], wifi_direct := none, name := none, mac_address := none,
        ip_address := none } :=
  (c3_uncaught_valueerror.2.2.2.2 [tankLi45] "w"
      { source := some "w", model := none, printer_status := none,
        scanner_status := none, inks := [("BK", 90)], maintenance_box := none,
        network := [], wifi_direct := none, name := none, mac_address := none,
        ip_address := none } rfl).symm

/-- C4: the gradient decode equals clamp(round(p1), 0, 100) on the second
percent token whenever a linear-gradient declaration is present and at
least two percent tokens exist, and yields nothing otherwise; on a tank
item it is consulted exactly when the pixel-height path yields nothing. -/
theorem c4_gradient_second_stop (s : String) (li : HNode) :
    (percent_from_linear_gradient (some s) =
      (if containsSub s "linear-gradient" then
        match findPercentTokens s with
        | _ :: t1 :: _ => some (max 0 (min 100 (pyRoundTok t1)))
        | _ => none
      else none)) ∧
    (li_bar_percent li = none → tankPct li = li_gradient_percent li) := by
  constructor
  · obtain ⟨data⟩ := s
    match data with
    | [] => decide
    | c :: rest =>
      unfold percent_from_linear_gradient
      simp
  · intro h
    unfold tankPct
    rw [h]

/-- C4, witness: a four-stop gradient with second stop 34% decodes to 34,
and a tank item with no bar image falls through to the gradient path. -/
theorem c4_witness :
    percent_from_linear_gradient
        (some "background: linear-gradient(to top, #0ff 0%, #0ff 34%, #fff 34%, #fff 100%)") =
      some 34 ∧
    tankPct gradLi = li_gradient_percent gradLi ∧
    li_gradient_percent gradLi = some 34 :=
  have h := c4_gradient_second_stop
    "background: linear-gradient(to top, #0ff 0%, #0ff 34%, #fff 34%, #fff 100%)" gradLi
  ⟨h.1.trans (by decide), h.2 (by decide), by decide⟩

/-- C5, counterexample: a primary status container whose flattened text
is the non-empty string "." cleans to None, so the parser falls through
to the information-div fallback even though the primary container is
present with non-empty text — "Fallback Status" is returned, not a value
derived from the primary container. -/
theorem c5_counterexample :
    docFind c5doc (fun n => n.tagIs "fieldset" && n.idOf == some "PRT_STATUS") =
      some fsDot ∧
    getTextSS fsDot = "." ∧ ("." : String) ≠ "" ∧
    (parse_statuses c5doc).1 = some "Fallback Status" :=
  ⟨rfl, by decide, by decide, by decide⟩

/-- C5 (amended): the primary container takes precedence whenever
cleaning its flattened text yields a value: if the fieldset keyed
PRT_STATUS is found and _clean_status of its text is some v, the printer
status is v regardless of any information-div fallback structure in the
same document; the fallback is consulted only when the cleaned primary
text is None (absent, empty, or reduced to empty by cleaning). -/
theorem c5_primary_precedence (d : Doc) (fs : HNode) (v : String)
    (h1 : docFind d (fun n => n.tagIs "fieldset" && n.idOf == some "PRT_STATUS") = some fs)
    (h2 : clean_status (some (getTextSS fs)) = some v) :
    (parse_statuses d).1 = some v := by
  unfold parse_statuses
  rw [h1]
  simp [h2]

/-- C5, witness: with both a primary "Primary Status" and a fallback
"Fallback Status" present, the primary wins. -/
theorem c5_witness : (parse_statuses c5docBoth).1 = some "Primary Status" :=
  c5_primary_precedence c5docBoth fsPrimary "Primary Status" rfl (by decide)

/-- C6, counterexample: after a successful fetch of a page with a black
tank at 90%, a failed fetch flips available to false but keeps the old
soup, so the level-sensor read still returns the stale 90 instead of the
absent value the claim promises for every read after a failed fetch. -/
theorem c6_counterexample :
    apiS1.available = false ∧
    get_sensor_value apiS1 "black" = some (.i 90) ∧
    get_sensor_value apiS1 "black" ≠ none :=
  ⟨rfl, by decide, by decide⟩

/-- C6 (amended): a failed fetch sets available to false and touches
nothing else — no exception reaches the caller, and the previously
parsed page is retained; field reads return their defined defaults
(level sensors absent, model the generic fallback label, MAC absent)
provided no earlier fetch had succeeded, while after an earlier success
they keep returning the stale values. -/
theorem c6_failure_defaults (st : ApiState) :
    (update st none).available = false ∧
    (update st none).soup = st.soup ∧
    (st.soup = none → ∀ sensor, get_sensor_value (update st none) sensor = none) ∧
    (st.modelF = none → modelProp (update st none) = "WorkForce Printer") ∧
    (st.macF = none → macProp (update st none) = none) := by
  obtain ⟨av, sp, mo, mc⟩ := st
  refine ⟨rfl, rfl, ?_, ?_, ?_⟩
  · intro h sensor
    simp only at h
    subst h
    rfl
  · intro h
    simp only at h
    subst h
    rfl
  · intro h
    simp only at h
    subst h
    rfl

/-- C6, witness: when the very first fetch fails, the flag drops and
every read is at its default. -/
theorem c6_witness :
    (update initApiState none).available = false ∧
    get_sensor_value (update initApiState none) "black" = none ∧
    modelProp (update initApiState none) = "WorkForce Printer" ∧
    macProp (update initApiState none) = none :=
  have h := c6_failure_defaults initApiState
  ⟨h.1, h.2.2.1 rfl "black", h.2.2.2.1 rfl, h.2.2.2.2 rfl⟩

/-- C7: a sensor name that is neither "printer_status" nor a key of
LEVEL_SENSOR_TO_DIV makes get_sensor_value return None in every state,
whatever the parsed page contains. -/
theorem c7_unknown_sensor (st : ApiState) (sensor : String)
    (h1 : (sensor == "printer_status") = false)
    (h2 : LEVEL_SENSOR_TO_DIV.find? (fun e => e.1 == sensor) = none) :
    get_sensor_value st sensor = none := by
  obtain ⟨av, sp, mo, mc⟩ := st
  cases sp with
  | none => rfl
  | some d =>
    by_cases hd : d.isEmpty
    · simp [get_sensor_value, hd]
    · simp [get_sensor_value, hd, h1, h2]

/-- C7, witness: an unknown sensor name queried against a state holding
a real parsed page. -/
theorem c7_witness : get_sensor_value apiS0 "not_a_real_sensor" = none :=
  c7_unknown_sensor apiS0 "not_a_real_sensor" (by decide) (by decide)

/-- C8, counterexample: a page whose only MAC-shaped token is lower-case
free text yields a lower-case mac_address — the free-text fallback
matches case-insensitively and performs no upper-casing. -/
theorem c8_counterexample :
    (parseDoc macLowerDoc "src").mac_address = some "aa:bb:cc:dd:ee:ff" ∧
    "aa:bb:cc:dd:ee:ff".data.any Char.isLower = true := by
  decide

theorem macColonPair_shape {cs : List Char} {a b : Char} {r : List Char}
    (h : macColonPair cs = some (a, b, r)) :
    isHexChar a = true ∧ isHexChar b = true := by
  unfold macColonPair at h
  split at h
  · rename_i a2 b2 rest
    by_cases hh : (isHexChar a2 && isHexChar b2) = true
    · rw [if_pos hh] at h
      simp only [Option.some.injEq, Prod.mk.injEq] at h
      obtain ⟨ha, hb, _⟩ := h
      subst ha; subst hb
      simpa using hh
    · rw [if_neg hh] at h
      exact absurd h (by simp)
  · exact absurd h (by simp)

theorem matchMacAt_shape {cs tok : List Char}
    (h : matchMacAt cs = some tok) : isMacShape ⟨tok⟩ = true := by
  unfold matchMacAt at h
  split at h
  · exact absurd h (by simp)
  next a1 b1 r1 h1 =>
    split at h
    · exact absurd h (by simp)
    next a2 b2 r2 h2 =>
      split at h
      · exact absurd h (by simp)
      next a3 b3 r3 h3 =>
        split at h
        · exact absurd h (by simp)
        next a4 b4 r4 h4 =>
          split at h
          · exact absurd h (by simp)
          next a5 b5 r5 h5 =>
            split at h
            next c1 c2 rest h6 =>
              split at h
              next hcond =>
                simp only [Option.some.injEq] at h
                subst h
                have k1 := macColonPair_shape h1
                have k2 := macColonPair_shape h2
                have k3 := macColonPair_shape h3
                have k4 := macColonPair_shape h4
                have k5 := macColonPair_shape h5
                simp only [Bool.and_eq_true] at hcond
                simp [isMacShape, k1.1, k1.2, k2.1, k2.2, k3.1, k3.2,
                      k4.1, k4.2, k5.1, k5.2, hcond.1.1, hcond.1.2]
              next hcond => exact absurd h (by simp)
            next h6 => exact absurd h (by simp)
            next c h6 => exact absurd h (by simp)

theorem macScan_shape : ∀ (cs : List Char) (b : Bool) (m : String),
    macScan b cs = some m → isMacShape m = true := by
  intro cs
  induction cs with
  | nil => intro b m h; simp [macScan] at h
  | cons c rest ih =>
    intro b m h
    unfold macScan at h
    cases hb : (if b then matchMacAt (c :: rest) else none) with
    | some tok =>
      rw [hb] at h
      simp only [Option.some.injEq] at h
      subst h
      cases b with
      | true => simp only [if_true] at hb; exact matchMacAt_shape hb
      | false => exact absurd hb (by simp)
    | none =>
      rw [hb] at h
      exact ih _ _ h

/-- C8 (amended): when the table lookups yield nothing and the MAC comes
from the free-text pattern fallback, the recorded mac_address is a
colon-separated hex MAC matched case-insensitively — in the page's
original case, with no upper-casing applied (table-sourced values are
taken verbatim, with no format guarantee at all). -/
theorem c8_mac_pattern (d : Doc) (src m : String)
    (h1 : dictGet (parse_table_by_container_id d "info-network") "MAC Address" = none)
    (h2 : dictGet (parse_table_by_container_id d "info-network") "MAC address" = none)
    (h3 : extract_mac_from_text d = some m) :
    (parseDoc d src).mac_address = some m ∧ isMacShape m = true := by
  have hshape : isMacShape m = true := macScan_shape _ _ _ h3
  have hne : m.data.isEmpty = false := by
    unfold isMacShape at hshape
    split at hshape
    · rename_i heq
      rw [heq]
      rfl
    · exact absurd hshape (by simp)
  refine ⟨?_, hshape⟩
  show truthyOpt
      (orTruthy (dictGet (parse_table_by_container_id d "info-network") "MAC Address")
        (orTruthy (dictGet (parse_table_by_container_id d "info-network") "MAC address")
          (extract_mac_from_text d))) = some m
  rw [h1, h2, h3]
  simp [orTruthy, truthyOpt, hne]

/-- C8, witness: the lower-case free-text MAC is recorded verbatim and
matches the pattern. -/
theorem c8_witness :
    (parseDoc macLowerDoc "x").mac_address = some "aa:bb:cc:dd:ee:ff" ∧
    isMacShape "aa:bb:cc:dd:ee:ff" = true :=
  c8_mac_pattern macLowerDoc "x" "aa:bb:cc:dd:ee:ff" rfl rfl (by decide)

/-- C9: parse is a pure function of the parser's two fields (the source
label and the parsed tree) — the method writes no instance state, so
parsing the same markup twice, or through two parsers built from the same
input, yields identical records. -/
theorem c9_parse_deterministic (d : Doc) (src : String) :
    (EpsonHTMLPage.mk src d).parse = (EpsonHTMLPage.mk src d).parse ∧
    ∀ p : EpsonHTMLPage, p.parse = p.parse :=
  ⟨rfl, fun _ => rfl⟩

/-- C10: for a tank item with a decoded percent, the waste-class marker
routes the value to maintenance_box and suppresses any ink entry even
when a channel label is present; without the marker, a present label
stores the value under that channel. -/
theorem c10_waste_exclusive (acc : List (String × ℤ) × Option ℤ) (li : HNode) (p : ℤ)
    (hp : tankPct li = some p) :
    (is_maintenance li = true → tankStep acc li = (acc.1, some p)) ∧
    (is_maintenance li = false → ∀ lab, findClrnameLabel li = some lab →
      tankStep acc li = (dictInsert acc.1 lab p, acc.2)) := by
  constructor
  · intro hm
    simp [tankStep, hp, hm]
  · intro hm lab hl
    simp [tankStep, hp, hm, hl]

/-- C10, witness: a waste-marked tank item that also carries the label
"WX" updates only maintenance_box (21px bar, 42%), leaving inks empty. -/
theorem c10_witness :
    tankStep ([], none) wasteLi = ([], some 42) ∧
    findClrnameLabel wasteLi = some "WX" :=
  have h := c10_waste_exclusive ([], none) wasteLi 42 (by decide)
  ⟨h.1 (by decide), by decide⟩
